import Mathlib

/-!
Shallow embedding of the RAG-on-AWS ingestion and query pipelines
(`src/document_processor/document_processor.py`,
`src/query_processor/query_processor.py`), together with theorems settling
the specification claims about them.

External collaborators (S3, PostgreSQL/pgvector, the Gemini embedding,
generation and evaluation endpoints) are modelled as explicit oracles and
stores passed into each function; strings are modelled at the byte/ASCII
level (multi-byte UTF-8 re-coding done by `urllib.parse` is not modelled,
no claim depends on it).
-/

namespace RagAws

/-! ### urllib.parse primitives (byte-level model) -/

/-- Numeric value of a hexadecimal digit character, `none` otherwise. -/
def hexVal? (c : Char) : Option Nat :=
  if 48 ≤ c.toNat ∧ c.toNat ≤ 57 then some (c.toNat - 48)
  else if 65 ≤ c.toNat ∧ c.toNat ≤ 70 then some (c.toNat - 55)
  else if 97 ≤ c.toNat ∧ c.toNat ≤ 102 then some (c.toNat - 87)
  else none

/-- Python `urllib.parse.unquote_plus` on a character list: `+` becomes a space and
`%XX` with two hex digits decodes to the byte `XX`; an invalid `%` sequence
is left as a literal `%`. -/
def unquotePlusAux : List Char → List Char
  | [] => []
  | '%' :: c1 :: c2 :: rest =>
    match hexVal? c1, hexVal? c2 with
    | some hi, some lo => Char.ofNat (16 * hi + lo) :: unquotePlusAux rest
    | _, _ => '%' :: unquotePlusAux (c1 :: c2 :: rest)
  | '+' :: rest => ' ' :: unquotePlusAux rest
  | c :: rest => c :: unquotePlusAux rest

/-- Python `urllib.parse.unquote_plus` on strings. -/
def unquote_plus (s : String) : String := ⟨unquotePlusAux s.data⟩

/-- The characters `urllib.parse.quote` never encodes: ASCII letters,
digits, `_`, `.`, `-`, `~`. -/
def isUnreservedByte (n : Nat) : Bool :=
  (65 ≤ n && n ≤ 90) || (97 ≤ n && n ≤ 122) || (48 ≤ n && n ≤ 57) ||
    n == 95 || n == 46 || n == 45 || n == 126

/-- Upper-case hexadecimal digit for `n < 16`. -/
def hexUpper (n : Nat) : Char :=
  if n < 10 then Char.ofNat (48 + n) else Char.ofNat (55 + n)

/-- Percent-encoding `%XX` of one byte. -/
def pctEncode (n : Nat) : List Char :=
  ['%', hexUpper (n / 16), hexUpper (n % 16)]

/-- One character under `urllib.parse.quote_plus` (default `safe=''`):
unreserved characters stay, a space becomes `+`, everything else —
including `/` — is percent-encoded. -/
def quotePlusChar (c : Char) : List Char :=
  if isUnreservedByte c.toNat then [c]
  else if c = ' ' then ['+']
  else pctEncode c.toNat

/-- Python `urllib.parse.quote_plus` on strings. -/
def quote_plus (s : String) : String := ⟨(s.data.map quotePlusChar).flatten⟩

/-- One character under `urllib.parse.quote` with `safe='/'`: unreserved
characters and `/` stay, everything else — including a space, which becomes
`%20` — is percent-encoded. -/
def quoteSlashChar (c : Char) : List Char :=
  if isUnreservedByte c.toNat || c = '/' then [c] else pctEncode c.toNat

/-- Python `urllib.parse.quote(s, safe='/')` on strings. -/
def quote_safe_slash (s : String) : String :=
  ⟨(s.data.map quoteSlashChar).flatten⟩

/-- Python `str.split(sep)` for a one-character separator, by structural
recursion on the characters (`"".split(sep) == [""]`). -/
def splitCharAux (sep : Char) : List Char → List Char → List String
  | [], acc => [⟨acc.reverse⟩]
  | c :: rest, acc =>
    if c = sep then ⟨acc.reverse⟩ :: splitCharAux sep rest []
    else splitCharAux sep rest (c :: acc)

/-- Python `s.split(sep)` on strings, one-character separator. -/
def splitChar (sep : Char) (s : String) : List String :=
  splitCharAux sep s.data []

/-- Python `'/'.join(parts)`. -/
def joinSlash : List String → String
  | [] => ""
  | [s] => s
  | s :: rest@(_ :: _) => s ++ "/" ++ joinSlash rest

/-- Python `str.strip()`: drop leading and trailing whitespace. -/
def pyStrip (s : String) : String :=
  ⟨((s.data.dropWhile Char.isWhitespace).reverse.dropWhile
      Char.isWhitespace).reverse⟩

/-- Python `s.replace('%20', ' ')`: left-to-right, non-overlapping. -/
def replacePct20 : List Char → List Char
  | '%' :: '2' :: '0' :: rest => ' ' :: replacePct20 rest
  | c :: rest => c :: replacePct20 rest
  | [] => []

/-! ### S3 store model and the key resolver
(`get_s3_object_with_various_encoding`)

The S3 bucket is a finite ordered list of existing object keys:
`head_object` succeeds exactly on members, and `list_objects_v2` with a
given key text returns the members having it as a literal prefix, in store
order. -/

/-- S3 `head_object` on the store model: succeeds iff the key exists. -/
def head_ok (store : List String) (k : String) : Bool := store.contains k

/-- The ordered candidate list `keys_to_try` built by
`get_s3_object_with_various_encoding` (document_processor.py lines
189–207), with the source's literal guard conditions. -/
def keysToTry (key : String) : List String :=
  let l1 := [key]
  let decoded := unquote_plus key
  let l2 := if decoded ≠ key then l1 ++ [decoded] else l1
  let encoded := quote_plus decoded
  let l3 := if encoded ≠ key ∧ encoded ≠ decoded then l2 ++ [encoded] else l2
  let encodedAlt := quote_safe_slash decoded
  if encodedAlt ≠ key ∧ encodedAlt ∉ l3 then l3 ++ [encodedAlt] else l3

/-- The head-probe loop over the candidate keys: first candidate that
exists in the store. -/
def tryKeys (store : List String) : List String → Option String
  | [] => none
  | k :: rest => if head_ok store k then some k else tryKeys store rest

/-- Last `/`-separated component of a key (Python `key.split('/')[-1]`). -/
def lastComponent (key : String) : String := (splitChar '/' key).getLastD ""

/-- Parent directory of a key
(Python `'/'.join(key.split('/')[:-1]) + '/'`). -/
def parentDir (key : String) : String :=
  joinSlash ((splitChar '/' key).dropLast) ++ "/"

/-- Filename normalization used when scanning the listing:
`s.replace('+', ' ').replace('%20', ' ')`. -/
def normalizeFilename (s : String) : String :=
  ⟨replacePct20 (s.data.map (fun c => if c = '+' then ' ' else c))⟩

/-- S3 `list_objects_v2` on the store model: members having the given text as
a literal prefix, in store order. -/
def listUnderParent (store : List String) (p : String) : List String :=
  store.filter (fun k => p.data.isPrefixOf k.data)

/-- The listing fallback of `get_s3_object_with_various_encoding`
(lines 219–248): first listed object under the parent directory whose
normalized filename equals the requested one and whose `head_object`
probe succeeds. -/
def fallbackScan (store : List String) (key : String) : Option String :=
  let expected := normalizeFilename (lastComponent key)
  (listUnderParent store (parentDir key)).find?
    (fun k => normalizeFilename (lastComponent k) == expected && head_ok store k)

/-- The resolver `get_s3_object_with_various_encoding`: try each candidate key, then the
listing fallback, else fail reporting the candidate keys tried. -/
def get_s3_object_with_various_encoding (store : List String) (key : String) :
    Except (List String) String :=
  match tryKeys store (keysToTry key) with
  | some k => Except.ok k
  | none =>
    match fallbackScan store key with
    | some k => Except.ok k
    | none => Except.error (keysToTry key)

/-! Spec-side rendering of the key-resolution claim (C4), written from the
claim's own words, to be compared with the source-side resolver. -/

/-- Candidate keys as the claim words them: the literal key; its
`unquote_plus` decoding if it differs; the plus-for-space re-encoding of
the decoded key if distinct from both; the percent-encoding with slashes
preserved if distinct from all previous candidates. -/
def claimCandidates (key : String) : List String :=
  let decoded := unquote_plus key
  let c2 := [key] ++ (if decoded ∉ [key] then [decoded] else [])
  let c3 := c2 ++ (if quote_plus decoded ∉ c2 then [quote_plus decoded] else [])
  c3 ++ (if quote_safe_slash decoded ∉ c3 then [quote_safe_slash decoded] else [])

/-- Key resolution as the claim words it: first candidate existing in the
store; otherwise the first object listed under the key's parent whose
filename component equals the requested filename after normalizing `+` and
`%20` to spaces; otherwise NotFound reporting every candidate tried. -/
def claimResolve (store : List String) (key : String) :
    Except (List String) String :=
  match (claimCandidates key).find? (fun k => store.contains k) with
  | some k => Except.ok k
  | none =>
    let wanted := normalizeFilename (lastComponent key)
    match (listUnderParent store (parentDir key)).find?
        (fun k => normalizeFilename (lastComponent k) == wanted) with
    | some k => Except.ok k
    | none => Except.error (claimCandidates key)

/-! ### Query processor (`query_processor.py`) -/

namespace QueryProcessor

/-- Model of `embed_query` (query_processor.py lines 63–73). The external Gemini
call is an oracle: `some v` is a successful call yielding vector `v`,
`none` is any failure (the call raising, or the response lacking
embeddings). On failure the function returns a 768-dimensional zero vector
instead of raising. -/
def embed_query (oracle : String → Option (List ℚ)) (text : String) :
    List ℚ :=
  match oracle text with
  | some v => v
  | none => List.replicate 768 0

/-- Model of `embed_documents` (lines 76–77): per-item calls of `embed_query`. -/
def embed_documents (oracle : String → Option (List ℚ))
    (texts : List String) : List (List ℚ) :=
  texts.map (embed_query oracle)

/-- A row of the `chunks` table. -/
structure ChunkRow where
  chunk_id : String
  document_id : String
  user_id : String
  content : String
  metadata : String
  embedding : List ℚ
deriving DecidableEq

/-- A row of the `documents` table (the columns the query side reads). -/
structure DocumentRow where
  document_id : String
  file_name : String
deriving DecidableEq

/-- One row returned by `similarity_search` (lines 132–142). -/
structure SearchResult where
  chunk_id : String
  document_id : String
  user_id : String
  content : String
  metadata : String
  file_name : String
  similarity_score : ℚ
deriving DecidableEq

/-- Model of `similarity_search` (lines 100–151), modelling the SQL the function
sends to PostgreSQL. `dist` is the pgvector `<=>` cosine-distance
operator, kept abstract (it is computed inside PostgreSQL, not in this
repository). The query joins `chunks` with `documents` on `document_id`,
keeps only rows with `user_id = %s`, orders ascending by
`embedding <=> query` (ties keep insertion order), limits the row count,
and selects `1 - (embedding <=> query)` as `similarity_score`. -/
def similarity_search (dist : List ℚ → List ℚ → ℚ)
    (chunks : List ChunkRow) (documents : List DocumentRow)
    (query_embedding : List ℚ) (user_id : String) (limit : Nat) :
    List SearchResult :=
  let joined :=
    ((chunks.filter (fun c => c.user_id == user_id)).map (fun c =>
      (documents.filter (fun d => d.document_id == c.document_id)).map
        (fun d => (c, d.file_name)))).flatten
  let sorted := joined.insertionSort (fun a b =>
    dist a.1.embedding query_embedding ≤ dist b.1.embedding query_embedding)
  (sorted.take limit).map (fun p =>
    { chunk_id := p.1.chunk_id
      document_id := p.1.document_id
      user_id := p.1.user_id
      content := p.1.content
      metadata := p.1.metadata
      file_name := p.2
      similarity_score := 1 - dist p.1.embedding query_embedding })

/-- The fixed apology string `generate_response` returns on a failed
generation call (line 184; spelled via character code 39 for the
apostrophe). -/
def apologyText : String :=
  "Sorry, I couldn" ++ ⟨[Char.ofNat 39]⟩ ++
    "t generate a response. Please try again later."

/-- Model of `generate_response` (lines 155–184): the external generation call is
an oracle; on failure the fixed apology string is returned instead of
raising. -/
def generate_response (callResult : Option String) (model_name query : String)
    (relevant_chunks : List SearchResult) : String :=
  match callResult with
  | some t => t
  | none => apologyText

/-! #### Evaluator (`GeminiRagEvaluator`, lines 187–365)

Each metric issues one auxiliary generation call, modelled as an
`Option String` oracle (`none` = the call raised or its reply text was
unusable), then extracts the first numeric literal from the reply with
`re.findall(r"0\.\d+|\d+\.?\d*", ...)`, parses it, and clamps it
to `[0, 1]`; every failure path yields `0.5`. -/

/-- Greedy match of the regex alternative `0\.\d+` at the head of the
character list. -/
def matchZeroDot : List Char → Option (List Char)
  | '0' :: '.' :: rest =>
    let ds := rest.takeWhile Char.isDigit
    if ds.isEmpty then none else some ('0' :: '.' :: ds)
  | _ => none

/-- Greedy match of the regex alternative `\d+\.?\d*` at the head of the
character list. -/
def matchNumber (l : List Char) : Option (List Char) :=
  let ds := l.takeWhile Char.isDigit
  if ds.isEmpty then none
  else
    match l.drop ds.length with
    | '.' :: rest => some (ds ++ '.' :: rest.takeWhile Char.isDigit)
    | _ => some ds

/-- First match of `re.findall(r"0\.\d+|\d+\.?\d*", s)`: leftmost
position wins, and at a position the alternatives are tried in order. -/
def firstNumericScan : List Char → Option (List Char)
  | [] => none
  | c :: rest =>
    match matchZeroDot (c :: rest) with
    | some m => some m
    | none =>
      match matchNumber (c :: rest) with
      | some m => some m
      | none => firstNumericScan rest

/-- Value of a digit string (`'0'`–`'9'` characters). -/
def digitsToNat (l : List Char) : Nat :=
  l.foldl (fun a c => 10 * a + (c.toNat - 48)) 0

/-- Python `float` on the decimal literals the numeric scan produces
(digits, optionally a dot and more digits), as an exact rational. -/
def parseDecimal (l : List Char) : ℚ :=
  let ip := l.takeWhile Char.isDigit
  match l.drop ip.length with
  | '.' :: fp => (digitsToNat ip : ℚ) + (digitsToNat fp : ℚ) / (10 : ℚ) ^ fp.length
  | _ => (digitsToNat ip : ℚ)

/-- The shared rating-extraction block of `_evaluate_answer_relevancy`,
`_evaluate_faithfulness` and `_evaluate_context_precision`
(lines 239–252, 278–291, 312–325): strip the reply, return `0.5` when it
is empty or contains no numeric literal, else parse the first literal and
clamp it with `min(max(rating, 0.0), 1.0)`. -/
def extractRating (text : String) : ℚ :=
  let rating_text := pyStrip text
  if rating_text.data.isEmpty then 1/2
  else
    match firstNumericScan rating_text.data with
    | some m => min (max (parseDecimal m) 0) 1
    | none => 1/2

/-- One `_evaluate_*` metric call: a failed auxiliary call yields `0.5`,
a reply goes through `extractRating`. Total — never raises. -/
def evalMetric (callResult : Option String) : ℚ :=
  match callResult with
  | some text => extractRating text
  | none => 1/2

/-- Which auxiliary scoring calls were issued, for side-effect claims. -/
inductive MetricCall
  | relevancy
  | faithfulness
  | contextPrecision
deriving DecidableEq

/-- Oracle for the three possible auxiliary generation calls of one
evaluation. -/
structure EvalOracle where
  relevancyResp : Option String
  faithfulnessResp : Option String
  precisionResp : Option String

/-- Python truthiness of an optional string: `None` and `""` are falsy. -/
def truthyStr : Option String → Bool
  | some s => !s.data.isEmpty
  | none => false

/-- Model of `GeminiRagEvaluator.evaluate_response` (lines 196–222): always scores
`answer_relevancy` then `faithfulness`; scores `context_precision` only
under `if ground_truth:` (Python truthiness). Returns the score mapping
and the list of auxiliary calls issued. -/
def evaluate_response (o : EvalOracle) (query answer : String)
    (contexts : List String) (ground_truth : Option String) :
    List (String × ℚ) × List MetricCall :=
  let r1 := evalMetric o.relevancyResp
  let r2 := evalMetric o.faithfulnessResp
  if truthyStr ground_truth then
    ([("answer_relevancy", r1), ("faithfulness", r2),
      ("context_precision", evalMetric o.precisionResp)],
     [MetricCall.relevancy, MetricCall.faithfulness,
      MetricCall.contextPrecision])
  else
    ([("answer_relevancy", r1), ("faithfulness", r2)],
     [MetricCall.relevancy, MetricCall.faithfulness])

/-- Configuration of `evaluate_rag_response`: the `ENABLE_EVALUATION`
flag, and whether constructing the `GeminiRagEvaluator` (a `genai.Client`
call) succeeds — the only step its `try` can catch, since the metric
functions never raise. -/
structure EvalConfig where
  enable_evaluation : Bool
  evaluatorInitOk : Bool

/-- Model of `evaluate_rag_response` (lines 331–365): placeholder zeros when
evaluation is disabled, `0.5` defaults when the evaluator cannot be
built, otherwise `evaluate_response`; in the first two paths
`context_precision` is included under `if ground_truth:` and no auxiliary
call is issued. -/
def evaluate_rag_response (cfg : EvalConfig) (o : EvalOracle)
    (query answer : String) (contexts : List SearchResult)
    (ground_truth : Option String) :
    List (String × ℚ) × List MetricCall :=
  if !cfg.enable_evaluation then
    ([("answer_relevancy", 0), ("faithfulness", 0)] ++
      (if truthyStr ground_truth then [("context_precision", 0)] else []),
     [])
  else if !cfg.evaluatorInitOk then
    ([("answer_relevancy", 1/2), ("faithfulness", 1/2)] ++
      (if truthyStr ground_truth then [("context_precision", 1/2)] else []),
     [])
  else
    evaluate_response o query answer (contexts.map (fun c => c.content))
      ground_truth

/-! #### Query handler (lines 368–442) -/

/-- External side effects of one query-handler invocation. -/
inductive Effect
  | embedCall
  | searchCall
  | generateCall
  | evaluateCall
deriving DecidableEq

/-- Parsed JSON request body fields the handler reads. -/
structure RequestBody where
  action : Option String
  query : Option String
  user_id : Option String
  ground_truth : Option String
  enable_evaluation : Option Bool
  model_name : Option String

/-- The empty body `{}` (absent, empty or unparseable `event['body']`). -/
def emptyBody : RequestBody := ⟨none, none, none, none, none, none⟩

/-- An incoming event: a top-level `action` field and the parsed body
(`none` models a missing/unparseable body, which the source turns
into `{}`). -/
structure QueryEvent where
  action : Option String
  body : Option RequestBody

/-- Environment of one handler invocation: the embedding and generation
oracles, the database contents and distance operator, whether the
similarity-search database access succeeds, and the evaluator
configuration and oracle. -/
structure QueryEnv where
  embedOracle : String → Option (List ℚ)
  dist : List ℚ → List ℚ → ℚ
  chunks : List ChunkRow
  documents : List DocumentRow
  searchOk : Bool
  generateResp : Option String
  evalCfg : EvalConfig
  evalOracle : EvalOracle

/-- The handler's response: status code, message body (for healthcheck,
validation and error payloads), results, and evaluation mapping. -/
structure HandlerResponse where
  statusCode : Nat
  message : Option String
  results : List SearchResult
  count : Nat
  evaluation : List (String × ℚ)
deriving DecidableEq

/-- Model of `handler` (lines 368–442), returning the response together with the
trace of external pipeline calls issued, in order. Healthcheck requests
short-circuit; a missing/empty `query` is rejected with status 400 before
any pipeline step; a similarity-search failure propagates to the
catch-all and returns status 500. -/
def handler (env : QueryEnv) (event : QueryEvent) :
    HandlerResponse × List Effect :=
  let body := event.body.getD emptyBody
  if event.action == some "healthcheck" || body.action == some "healthcheck" then
    ({ statusCode := 200, message := some "Query processor is healthy",
       results := [], count := 0, evaluation := [] }, [])
  else
    let query := body.query
    let user_id := (body.user_id).getD "system"
    let ground_truth := body.ground_truth
    let enable_evaluation :=
      (body.enable_evaluation).getD env.evalCfg.enable_evaluation
    if !truthyStr query then
      ({ statusCode := 400, message := some "Query is required",
         results := [], count := 0, evaluation := [] }, [])
    else
      let q := query.getD ""
      let model_name := (body.model_name).getD "gemini-2.0-flash"
      let query_embedding := embed_query env.embedOracle q
      if !env.searchOk then
        ({ statusCode := 500, message := some "Internal error",
           results := [], count := 0, evaluation := [] },
         [Effect.embedCall, Effect.searchCall])
      else
        let relevant_chunks :=
          similarity_search env.dist env.chunks env.documents
            query_embedding user_id 5
        let response :=
          generate_response env.generateResp model_name q relevant_chunks
        let evaluation_results :=
          if enable_evaluation then
            (evaluate_rag_response env.evalCfg env.evalOracle q response
              relevant_chunks ground_truth).1
          else []
        ({ statusCode := 200, message := none, results := relevant_chunks,
           count := relevant_chunks.length, evaluation := evaluation_results },
         [Effect.embedCall, Effect.searchCall, Effect.generateCall] ++
           (if enable_evaluation then [Effect.evaluateCall] else []))

end QueryProcessor

/-! ### Document processor (`document_processor.py`) -/

namespace DocumentProcessor

/-- Model of `embed_query` (document_processor.py lines 82–96): identical fallback
behavior to the query-side function — a failed external call yields a
768-dimensional zero vector, never an exception. -/
def embed_query (oracle : String → Option (List ℚ)) (text : String) :
    List ℚ :=
  match oracle text with
  | some v => v
  | none => List.replicate 768 0

/-- Model of `embed_documents` (lines 71–79): a loop of per-item `embed_query`
calls. -/
def embed_documents (oracle : String → Option (List ℚ))
    (texts : List String) : List (List ℚ) :=
  texts.map (embed_query oracle)

/-- A loaded/split passage: text plus the `page` metadata the processor
reads. -/
structure Passage where
  page_content : String
  page : Nat
deriving DecidableEq

/-- A committed row of the `documents` table as `process_document`
writes it (lines 307–321). -/
structure DocRecord where
  document_id : String
  user_id : String
  file_name : String
  mime_type : String
  status : String
  bucket : String
  key : String
deriving DecidableEq

/-- A committed row of the `chunks` table as `process_document` writes it
(lines 342–354). -/
structure ChunkRecord where
  chunk_id : String
  document_id : String
  user_id : String
  content : String
  page : Nat
  embedding : List ℚ
deriving DecidableEq

/-- The committed PostgreSQL state visible after the invocation: rows of
`documents` and of `chunks`. Rows inserted but not committed when an
exception closes the connection are rolled back and never appear here. -/
structure PgState where
  documents : List DocRecord
  chunks : List ChunkRecord
deriving DecidableEq

/-- The state with no committed rows. -/
def emptyPg : PgState := ⟨[], []⟩

/-- Environment of one ingestion: the S3 store, the outcomes of the
download, loader, connection and insert steps, the chunker (LangChain
`RecursiveCharacterTextSplitter`, external to this repository), the
embedding oracle, and the `uuid4` generator. -/
structure IngestEnv where
  store : List String
  downloadOk : Bool
  loadResult : Option (List Passage)
  chunker : List Passage → List Passage
  embedOracle : String → Option (List ℚ)
  connectOk : Bool
  docInsertOk : Bool
  chunkInsertOk : Nat → Bool
  chunkId : Nat → String

/-- The chunk-insertion loop of `process_document` (lines 327–354): for
each chunk in order, draw a fresh id, embed the content (total — a failed
embedding call degrades to a zero vector), and execute the INSERT; the
first failing INSERT raises, aborting the loop. `none` means the loop
raised; `some rows` are the rows awaiting the final commit. -/
def insertChunkRows (env : IngestEnv) (document_id user_id : String) :
    Nat → List Passage → Option (List ChunkRecord)
  | _, [] => some []
  | i, c :: cs =>
    if env.chunkInsertOk i then
      let row : ChunkRecord :=
        { chunk_id := env.chunkId i
          document_id := document_id
          user_id := user_id
          content := c.page_content
          page := c.page
          embedding := embed_query env.embedOracle c.page_content }
      (insertChunkRows env document_id user_id (i + 1) cs).map
        (fun rest => row :: rest)
    else none

/-- Model of `process_document` (lines 254–370), returning the outcome
(`ok (chunk_count, chunk_ids)` or an aborting exception) together with
the committed database state. Control flow per the source: resolve the
key (4.4); download; load; chunk; connect; INSERT the `documents` row
with status `'processed'` and `conn.commit()` (lines 307–324, the row is
durable from here on); then embed and INSERT each chunk and commit once
at the end (line 357) — a failure inside the chunk loop raises and rolls
the uncommitted chunk rows back, leaving only the committed document
row. -/
def process_document (env : IngestEnv)
    (bucket key document_id user_id mime_type : String) :
    Except Unit (Nat × List String) × PgState :=
  match get_s3_object_with_various_encoding env.store key with
  | Except.error _ => (Except.error (), emptyPg)
  | Except.ok working_key =>
    if !env.downloadOk then (Except.error (), emptyPg)
    else
      match env.loadResult with
      | none => (Except.error (), emptyPg)
      | some documents =>
        let chunks := env.chunker documents
        if !env.connectOk then (Except.error (), emptyPg)
        else if !env.docInsertOk then (Except.error (), emptyPg)
        else
          let docRow : DocRecord :=
            { document_id := document_id
              user_id := user_id
              file_name := lastComponent working_key
              mime_type := mime_type
              status := "processed"
              bucket := bucket
              key := working_key }
          match insertChunkRows env document_id user_id 0 chunks with
          | none => (Except.error (), { documents := [docRow], chunks := [] })
          | some rows =>
            (Except.ok (chunks.length, rows.map (fun r => r.chunk_id)),
             { documents := [docRow], chunks := rows })

/-- Key-to-identity parsing in the ingestion `handler` (lines 446–457):
split on `/`; with at least four components take the second and third as
`user_id` and `document_id` (and the fourth as `file_name`); otherwise
fall back to `user_id = "system"`, `document_id` the part of the last
component before its first dot, and `file_name` the last component.
Returns `(user_id, document_id, file_name)`. -/
def parseKeyIds (key : String) : String × String × String :=
  let parts := splitChar '/' key
  if 4 ≤ parts.length then
    (parts.getD 1 "", parts.getD 2 "", parts.getD 3 "")
  else
    let last := parts.getLastD ""
    ("system", (splitChar '.' last).headD "", last)

/-- The pattern `uploads/{tenant_id}/{document_id}/{file_name}` as the
claim words it: exactly four `/`-separated components, the first being
the literal `uploads`. -/
def matchesUploadsPattern (key : String) : Bool :=
  let parts := splitChar '/' key
  parts.length == 4 && parts.headD "" == "uploads"

end DocumentProcessor

/-! ### Helper lemmas -/

/-- The head-probe loop is `find?` of store membership over the
candidates. -/
theorem tryKeys_eq_find (store l : List String) :
    tryKeys store l = l.find? (fun k => store.contains k) := by
  induction l with
  | nil => rfl
  | cons k rest ih =>
    by_cases hc : store.contains k = true
    · rw [List.find?_cons_of_pos _ hc]
      simp only [tryKeys, head_ok]
      rw [if_pos hc]
    · rw [List.find?_cons_of_neg _ (by simpa using hc)]
      simp only [tryKeys, head_ok, hc, if_false, Bool.false_eq_true]
      exact ih

/-- On a list whose members all pass the store-containment probe, a
`find?` that additionally re-probes the store equals plain `find?`. -/
theorem find_and_contains_of_all (store : List String) (p : String → Bool)
    (l : List String) (h : ∀ k ∈ l, store.contains k = true) :
    l.find? (fun k => p k && store.contains k) = l.find? p := by
  induction l with
  | nil => rfl
  | cons k rest ih =>
    have hk := h k (List.mem_cons_self k rest)
    have ih' := ih fun x hx => h x (List.mem_cons_of_mem k hx)
    by_cases hp : p k = true
    · rw [show List.find? (fun x => p x && store.contains x) (k :: rest) = some k from
          List.find?_cons_of_pos _ (by simp only [hp, Bool.true_and]; exact hk),
        List.find?_cons_of_pos _ hp]
    · rw [show List.find? (fun x => p x && store.contains x) (k :: rest) =
            List.find? (fun x => p x && store.contains x) rest from
          List.find?_cons_of_neg _ (by simp [hp]),
        List.find?_cons_of_neg _ (by simpa using hp), ih']

/-- Generic form of the candidate-list equality, over arbitrary decoded
and re-encoded strings. -/
theorem candidates_general (k d e a : String) :
    (let l2 := if d ≠ k then [k] ++ [d] else [k]
     let l3 := if e ≠ k ∧ e ≠ d then l2 ++ [e] else l2
     if a ≠ k ∧ a ∉ l3 then l3 ++ [a] else l3) =
    (let c2 := [k] ++ (if d ∉ [k] then [d] else [])
     let c3 := c2 ++ (if e ∉ c2 then [e] else [])
     c3 ++ (if a ∉ c3 then [a] else [])) := by
  by_cases h1 : d = k <;> by_cases h2 : e = k <;> by_cases h3 : e = d <;>
    by_cases h4 : a = k <;> by_cases h5 : a = d <;> by_cases h6 : a = e <;>
      simp_all

theorem keysToTry_eq_claimCandidates (key : String) :
    keysToTry key = claimCandidates key :=
  candidates_general key (unquote_plus key) (quote_plus (unquote_plus key))
    (quote_safe_slash (unquote_plus key))

/-- Claim C4, main lemma: the source resolver equals the resolver the
claim describes. -/
theorem resolver_eq_claimResolve (store : List String) (key : String) :
    get_s3_object_with_various_encoding store key = claimResolve store key := by
  unfold get_s3_object_with_various_encoding claimResolve
  rw [tryKeys_eq_find, keysToTry_eq_claimCandidates]
  have hf : fallbackScan store key =
      (listUnderParent store (parentDir key)).find?
        (fun k => normalizeFilename (lastComponent k) ==
          normalizeFilename (lastComponent key)) := by
    unfold fallbackScan
    apply find_and_contains_of_all
    intro k hk
    have hmem : k ∈ store := (List.mem_filter.mp hk).1
    exact List.elem_eq_true_of_mem hmem
  rw [hf]

/-- Every result row of `similarity_search` originates in a stored chunk
of the requested tenant, carries that chunk's fields, and scores
`1 - dist(chunk.embedding, query)`. -/
theorem similarity_search_mem {dist : List ℚ → List ℚ → ℚ}
    {chunks : List QueryProcessor.ChunkRow}
    {docs : List QueryProcessor.DocumentRow} {q : List ℚ} {uid : String}
    {lim : Nat} {r : QueryProcessor.SearchResult}
    (hr : r ∈ QueryProcessor.similarity_search dist chunks docs q uid lim) :
    ∃ c ∈ chunks, c.user_id = uid ∧ r.user_id = c.user_id ∧
      r.chunk_id = c.chunk_id ∧ r.content = c.content ∧
      r.similarity_score = 1 - dist c.embedding q := by
  simp only [QueryProcessor.similarity_search] at hr
  obtain ⟨p, hp, hpr⟩ := List.mem_map.mp hr
  have hp' := List.mem_of_mem_take hp
  rw [List.mem_insertionSort] at hp'
  obtain ⟨l', hl', hpl⟩ := List.mem_flatten.mp hp'
  obtain ⟨c, hc, rfl⟩ := List.mem_map.mp hl'
  obtain ⟨d, _, rfl⟩ := List.mem_map.mp hpl
  have hcf := List.mem_filter.mp hc
  have huid : c.user_id = uid := by simpa using hcf.2
  subst hpr
  exact ⟨c, hcf.1, huid, rfl, rfl, rfl, rfl⟩

/-- The `similarity_search` output is sorted by non-increasing similarity
score (the SQL orders ascending by distance and scores are
`1 - distance`). -/
theorem similarity_search_sorted (dist : List ℚ → List ℚ → ℚ)
    (chunks : List QueryProcessor.ChunkRow)
    (docs : List QueryProcessor.DocumentRow) (q : List ℚ) (uid : String)
    (lim : Nat) :
    (QueryProcessor.similarity_search dist chunks docs q uid lim).Pairwise
      (fun a b => b.similarity_score ≤ a.similarity_score) := by
  unfold QueryProcessor.similarity_search
  haveI hT : IsTotal (QueryProcessor.ChunkRow × String)
      (fun a b => dist a.1.embedding q ≤ dist b.1.embedding q) :=
    ⟨fun a b => le_total _ _⟩
  haveI hR : IsTrans (QueryProcessor.ChunkRow × String)
      (fun a b => dist a.1.embedding q ≤ dist b.1.embedding q) :=
    ⟨fun _ _ _ hab hbc => le_trans hab hbc⟩
  refine List.Pairwise.map _ (fun a b hab => ?_)
    (List.Pairwise.sublist (List.take_sublist _ _)
      (List.sorted_insertionSort _ _))
  dsimp only at hab ⊢
  exact sub_le_sub_left hab 1

/-- The function `similarity_search` returns at most `limit` rows. -/
theorem similarity_search_length_le (dist : List ℚ → List ℚ → ℚ)
    (chunks : List QueryProcessor.ChunkRow)
    (docs : List QueryProcessor.DocumentRow) (q : List ℚ) (uid : String)
    (lim : Nat) :
    (QueryProcessor.similarity_search dist chunks docs q uid lim).length ≤
      lim := by
  simp only [QueryProcessor.similarity_search, List.length_map]
  exact List.length_take_le _ _

/-- A metric value produced by the evaluator always lies in `[0, 1]`:
every fallback is `0.5` and a parsed rating is clamped. -/
theorem evalMetric_bounds (resp : Option String) :
    0 ≤ QueryProcessor.evalMetric resp ∧ QueryProcessor.evalMetric resp ≤ 1 := by
  cases resp with
  | none =>
    constructor <;> norm_num [QueryProcessor.evalMetric]
  | some t =>
    simp only [QueryProcessor.evalMetric, QueryProcessor.extractRating]
    split
    · constructor <;> norm_num
    · split
      · exact ⟨le_min (le_max_right _ _) zero_le_one, min_le_right _ _⟩
      · constructor <;> norm_num

/-! ### Sample fixtures used by the witnesses -/

/-- A degenerate distance operator (all distances zero) for witnesses. -/
def sampleDist : List ℚ → List ℚ → ℚ := fun _ _ => 0

/-- One stored chunk owned by tenant `alice`. -/
def sampleChunks : List QueryProcessor.ChunkRow :=
  [{ chunk_id := "c1", document_id := "d1", user_id := "alice",
     content := "hello", metadata := "m", embedding := [1] }]

/-- The document row owning `sampleChunks`. -/
def sampleDocs : List QueryProcessor.DocumentRow :=
  [{ document_id := "d1", file_name := "f.txt" }]

/-- The row `similarity_search` returns on the sample store. -/
def sampleResult : QueryProcessor.SearchResult :=
  { chunk_id := "c1", document_id := "d1", user_id := "alice",
    content := "hello", metadata := "m", file_name := "f.txt",
    similarity_score := 1 }

/-! ### The claims -/

/-- C2: for every query embedding, tenant `A`, and limit, every row
returned by `similarity_search` (the `nearest` operation) has tenant id
`A` and originates in a stored chunk whose tenant id is `A`; in
particular, for any tenant `B ≠ A`, no returned row is owned by `B`. -/
theorem C2_nearest_tenant_isolation (dist : List ℚ → List ℚ → ℚ)
    (chunks : List QueryProcessor.ChunkRow)
    (docs : List QueryProcessor.DocumentRow) (q : List ℚ) (A B : String)
    (lim : Nat) (hAB : A ≠ B) (r : QueryProcessor.SearchResult)
    (hr : r ∈ QueryProcessor.similarity_search dist chunks docs q A lim) :
    r.user_id = A ∧ r.user_id ≠ B ∧
      ∃ c ∈ chunks, c.user_id = A ∧ r.chunk_id = c.chunk_id ∧
        r.content = c.content := by
  obtain ⟨c, hc, hcu, hru, hid, hcontent, _⟩ := similarity_search_mem hr
  exact ⟨hru.trans hcu, by rw [hru, hcu]; exact hAB, c, hc, hcu, hid, hcontent⟩

/-- Witness for C2: on the sample store, the returned row is owned by
`alice` and not by `bob`. -/
theorem C2_witness :
    sampleResult.user_id = "alice" ∧ sampleResult.user_id ≠ "bob" ∧
      ∃ c ∈ sampleChunks, c.user_id = "alice" ∧
        sampleResult.chunk_id = c.chunk_id ∧
        sampleResult.content = c.content :=
  C2_nearest_tenant_isolation sampleDist sampleChunks sampleDocs [1]
    "alice" "bob" 5 (by decide) sampleResult
    (by with_unfolding_all decide)

/-- C3: `similarity_search` returns at most `limit` rows (the handler
passes the default limit 5); each returned row's `similarity_score`
equals `1 - dist(stored embedding, query embedding)` for the chunk it
came from, `dist` being the cosine-distance operator `<=>` evaluated
inside PostgreSQL; and the scores are monotonically non-increasing down
the returned list. -/
theorem C3_nearest_limit_and_monotone (dist : List ℚ → List ℚ → ℚ)
    (chunks : List QueryProcessor.ChunkRow)
    (docs : List QueryProcessor.DocumentRow) (q : List ℚ) (uid : String)
    (lim : Nat) :
    (QueryProcessor.similarity_search dist chunks docs q uid lim).length ≤ lim ∧
    (∀ r ∈ QueryProcessor.similarity_search dist chunks docs q uid lim,
      ∃ c ∈ chunks, r.chunk_id = c.chunk_id ∧
        r.similarity_score = 1 - dist c.embedding q) ∧
    (QueryProcessor.similarity_search dist chunks docs q uid lim).Pairwise
      (fun a b => b.similarity_score ≤ a.similarity_score) := by
  refine ⟨similarity_search_length_le dist chunks docs q uid lim,
    fun r hr => ?_, similarity_search_sorted dist chunks docs q uid lim⟩
  obtain ⟨c, hc, _, _, hid, _, hscore⟩ := similarity_search_mem hr
  exact ⟨c, hc, hid, hscore⟩

/-- Witness for C3 on the sample store: the limit bound and the score
formula at the concrete returned row. -/
theorem C3_witness :
    (QueryProcessor.similarity_search sampleDist sampleChunks sampleDocs
      [1] "alice" 5).length ≤ 5 ∧
    ∃ c ∈ sampleChunks, sampleResult.chunk_id = c.chunk_id ∧
      sampleResult.similarity_score = 1 - sampleDist c.embedding [1] :=
  ⟨(C3_nearest_limit_and_monotone sampleDist sampleChunks sampleDocs [1]
      "alice" 5).1,
   (C3_nearest_limit_and_monotone sampleDist sampleChunks sampleDocs [1]
      "alice" 5).2.1 sampleResult (by with_unfolding_all decide)⟩

/-- C4: key resolution tries, in order, the literal key, its
`unquote_plus` decoding if it differs, the plus-for-space re-encoding of
the decoded key if distinct from both, and the percent-encoding with
slashes preserved if distinct from the previous candidates, stopping at
the first key that exists in the store; failing that, it lists the
objects under the key's parent and returns the first whose filename
component equals the requested filename after normalizing `+` and `%20`
to spaces; if none match it fails with NotFound reporting every key
variant attempted. Stated as: the source resolver coincides extensionally
with `claimResolve`, the function written from the claim's words. -/
theorem C4_key_resolution_order (store : List String) (key : String) :
    get_s3_object_with_various_encoding store key = claimResolve store key :=
  resolver_eq_claimResolve store key

/-- C5: if the external embedding call fails for a text, `embed_query`
returns the 768-dimensional zero vector instead of propagating the
failure, in both the query and the ingestion pipeline (both functions are
total: they cannot raise), and the batch variants embed per item, so the
failing text contributes a zero vector there too. -/
theorem C5_zero_vector_on_embed_failure
    (oracle : String → Option (List ℚ)) (t : String) (h : oracle t = none) :
    QueryProcessor.embed_query oracle t = List.replicate 768 0 ∧
    DocumentProcessor.embed_query oracle t = List.replicate 768 0 ∧
    (∀ ts, t ∈ ts →
      List.replicate 768 0 ∈ QueryProcessor.embed_documents oracle ts) ∧
    (∀ ts, t ∈ ts →
      List.replicate 768 0 ∈ DocumentProcessor.embed_documents oracle ts) := by
  have h1 : QueryProcessor.embed_query oracle t = List.replicate 768 0 := by
    simp [QueryProcessor.embed_query, h]
  have h2 : DocumentProcessor.embed_query oracle t = List.replicate 768 0 := by
    simp [DocumentProcessor.embed_query, h]
  refine ⟨h1, h2, fun ts ht => ?_, fun ts ht => ?_⟩
  · exact h1 ▸ List.mem_map_of_mem _ ht
  · exact h2 ▸ List.mem_map_of_mem _ ht

/-- Witness for C5 at the always-failing oracle and the text `"x"`. -/
theorem C5_witness :
    QueryProcessor.embed_query (fun _ => none) "x" = List.replicate 768 0 ∧
    DocumentProcessor.embed_query (fun _ => none) "x" =
      List.replicate 768 0 :=
  ⟨(C5_zero_vector_on_embed_failure (fun _ => none) "x" rfl).1,
   (C5_zero_vector_on_embed_failure (fun _ => none) "x" rfl).2.1⟩

/-- C6 counterexample: with the reference answer supplied as the empty
string — a supplied value — the returned mapping omits
`context_precision`, refuting the claim's "if and only if a reference
answer was supplied" at that input. -/
theorem C6_counterexample :
    "context_precision" ∉
      ((QueryProcessor.evaluate_response ⟨none, none, none⟩ "q" "a" []
          (some "")).1.map Prod.fst) ∧
    (some "" : Option String).isSome = true := by
  constructor
  · decide
  · rfl

/-- C6 (amended): the score mapping always contains `answer_relevancy`
and `faithfulness`; it contains `context_precision` iff a *non-empty*
reference answer was supplied (Python truthiness of `ground_truth`); and
every value in the mapping lies in `[0, 1]`. -/
theorem C6_scores_shape (o : QueryProcessor.EvalOracle) (q a : String)
    (ctxs : List String) (gt : Option String) :
    "answer_relevancy" ∈
      (QueryProcessor.evaluate_response o q a ctxs gt).1.map Prod.fst ∧
    "faithfulness" ∈
      (QueryProcessor.evaluate_response o q a ctxs gt).1.map Prod.fst ∧
    ("context_precision" ∈
        (QueryProcessor.evaluate_response o q a ctxs gt).1.map Prod.fst ↔
      QueryProcessor.truthyStr gt = true) ∧
    ∀ p ∈ (QueryProcessor.evaluate_response o q a ctxs gt).1,
      0 ≤ p.2 ∧ p.2 ≤ 1 := by
  by_cases hgt : QueryProcessor.truthyStr gt = true
  · refine ⟨?_, ?_, ?_, ?_⟩
    · simp [QueryProcessor.evaluate_response, hgt]
    · simp [QueryProcessor.evaluate_response, hgt]
    · simp [QueryProcessor.evaluate_response, hgt]
    · intro p hp
      simp only [QueryProcessor.evaluate_response, hgt, if_true,
        List.mem_cons, List.not_mem_nil, or_false] at hp
      rcases hp with rfl | rfl | rfl <;> exact evalMetric_bounds _
  · have hgt' : QueryProcessor.truthyStr gt = false := by simpa using hgt
    refine ⟨?_, ?_, ?_, ?_⟩
    · simp [QueryProcessor.evaluate_response, hgt']
    · simp [QueryProcessor.evaluate_response, hgt']
    · simp +decide [QueryProcessor.evaluate_response, hgt']
    · intro p hp
      simp only [QueryProcessor.evaluate_response, hgt',
        Bool.false_eq_true, if_false, List.mem_cons, List.not_mem_nil,
        or_false] at hp
      rcases hp with rfl | rfl <;> exact evalMetric_bounds _

/-- Witness for C6 (amended) at the all-failing oracle with no reference
answer: the bound instantiated at the `answer_relevancy` entry. -/
theorem C6_witness : 0 ≤ (1/2 : ℚ) ∧ (1/2 : ℚ) ≤ 1 :=
  (C6_scores_shape ⟨none, none, none⟩ "q" "a" [] none).2.2.2
    ("answer_relevancy", 1/2) (by with_unfolding_all decide)

/-- C7: a failed auxiliary model call yields the neutral default `0.5`
for the metric; a reply from which the first-match numeric scan extracts
no literal also yields `0.5`; when a literal is extracted the value is
clamped to `[0, 1]` via `min(max(rating, 0), 1)`; and the metric value
always lies in `[0, 1]` (the function is total — metric computation
cannot raise). -/
theorem C7_metric_default_and_clamp (resp : Option String) :
    (resp = none → QueryProcessor.evalMetric resp = 1/2) ∧
    (∀ t, resp = some t →
      QueryProcessor.firstNumericScan (pyStrip t).data = none →
      QueryProcessor.evalMetric resp = 1/2) ∧
    (∀ t m, resp = some t →
      QueryProcessor.firstNumericScan (pyStrip t).data = some m →
      QueryProcessor.evalMetric resp =
        min (max (QueryProcessor.parseDecimal m) 0) 1) ∧
    0 ≤ QueryProcessor.evalMetric resp ∧ QueryProcessor.evalMetric resp ≤ 1 := by
  refine ⟨?_, ?_, ?_, evalMetric_bounds resp⟩
  · rintro rfl; rfl
  · rintro t rfl hscan
    simp [QueryProcessor.evalMetric, QueryProcessor.extractRating, hscan]
  · rintro t m rfl hscan
    have hne : (pyStrip t).data.isEmpty = false := by
      cases hdata : (pyStrip t).data with
      | nil =>
        rw [hdata] at hscan
        simp [QueryProcessor.firstNumericScan] at hscan
      | cons c cs => rfl
    simp [QueryProcessor.evalMetric, QueryProcessor.extractRating, hne,
      hscan]

/-- Witness for C7: the reply `"score: 1.7"` parses to `1.7` and is
clamped into `[0, 1]`. -/
theorem C7_witness :
    QueryProcessor.evalMetric (some "score: 1.7") =
      min (max (QueryProcessor.parseDecimal ['1', '.', '7']) 0) 1 :=
  (C7_metric_default_and_clamp (some "score: 1.7")).2.2.1 "score: 1.7"
    ['1', '.', '7'] rfl (by decide)

/-- The predicate `truthyStr` is false on the empty string, as on `none`. -/
theorem truthyStr_some_empty : QueryProcessor.truthyStr (some "") = false :=
  rfl

/-- C10: supplying the reference answer as the empty string behaves
exactly as supplying none: the score mapping and the auxiliary-call trace
coincide with the no-reference ones in `evaluate_response` and in every
path of `evaluate_rag_response` (normal, disabled, evaluator-init
failure), and no `context_precision` call is issued. -/
theorem C10_empty_reference_equals_absent (o : QueryProcessor.EvalOracle)
    (q a : String) (ctxs : List String) (cfg : QueryProcessor.EvalConfig)
    (rctxs : List QueryProcessor.SearchResult) :
    QueryProcessor.evaluate_response o q a ctxs (some "") =
      QueryProcessor.evaluate_response o q a ctxs none ∧
    QueryProcessor.evaluate_rag_response cfg o q a rctxs (some "") =
      QueryProcessor.evaluate_rag_response cfg o q a rctxs none ∧
    QueryProcessor.MetricCall.contextPrecision ∉
      (QueryProcessor.evaluate_response o q a ctxs (some "")).2 ∧
    QueryProcessor.MetricCall.contextPrecision ∉
      (QueryProcessor.evaluate_rag_response cfg o q a rctxs (some "")).2 := by
  by_cases h1 : cfg.enable_evaluation <;>
    by_cases h2 : cfg.evaluatorInitOk <;>
      simp [QueryProcessor.evaluate_response,
        QueryProcessor.evaluate_rag_response, truthyStr_some_empty,
        QueryProcessor.truthyStr, h1, h2]

/-- A sample environment for the query-handler witness. -/
def sampleEnv : QueryProcessor.QueryEnv :=
  { embedOracle := fun _ => none
    dist := sampleDist
    chunks := sampleChunks
    documents := sampleDocs
    searchOk := true
    generateResp := none
    evalCfg := { enable_evaluation := true, evaluatorInitOk := true }
    evalOracle := ⟨none, none, none⟩ }

/-- A request event with no body at all. -/
def sampleQueryEvent : QueryProcessor.QueryEvent := ⟨none, none⟩

/-- C8: a query request that is not a healthcheck and whose required
query text is absent is rejected with status 400 ("Query is required")
and an empty effect trace — no embedding, retrieval, generation, or
evaluation call is issued. -/
theorem C8_missing_query_rejected (env : QueryProcessor.QueryEnv)
    (event : QueryProcessor.QueryEvent)
    (h1 : event.action ≠ some "healthcheck")
    (h2 : (event.body.getD QueryProcessor.emptyBody).action ≠
      some "healthcheck")
    (hq : (event.body.getD QueryProcessor.emptyBody).query = none) :
    QueryProcessor.handler env event =
      ({ statusCode := 400, message := some "Query is required",
         results := [], count := 0, evaluation := [] }, []) := by
  have hb1 : (event.action == some "healthcheck") = false := by
    simpa using h1
  have hb2 : ((event.body.getD QueryProcessor.emptyBody).action ==
      some "healthcheck") = false := by
    simpa using h2
  simp [QueryProcessor.handler, hb1, hb2, hq, QueryProcessor.truthyStr]

/-- Witness for C8: the empty event against the sample environment. -/
theorem C8_witness :
    QueryProcessor.handler sampleEnv sampleQueryEvent =
      ({ statusCode := 400, message := some "Query is required",
         results := [], count := 0, evaluation := [] }, []) :=
  C8_missing_query_rejected sampleEnv sampleQueryEvent (by decide)
    (by decide) rfl

/-- C9 counterexample: the key `"x/a/b/c.txt"` does not match the pattern
`uploads/{tenant_id}/{document_id}/{file_name}` (its first component is
not `uploads`), yet the handler takes tenant `"a"` and document `"b"`
from it instead of the claimed defaults (`"system"` and the filename
stem `"c"`). -/
theorem C9_counterexample :
    DocumentProcessor.matchesUploadsPattern "x/a/b/c.txt" = false ∧
    DocumentProcessor.parseKeyIds "x/a/b/c.txt" = ("a", "b", "c.txt") ∧
    (DocumentProcessor.parseKeyIds "x/a/b/c.txt").1 ≠ "system" := by
  decide

/-- C9 (amended): identity extraction branches only on the number of
`/`-separated components, never on the literal `uploads`: with at least
four components the tenant and document ids are the second and third
components (whatever the first is); with fewer, the tenant id defaults to
the sentinel `"system"` and the document id to the part of the key's last
component before its first dot. -/
theorem C9_key_component_parsing (key : String) :
    (4 ≤ (splitChar '/' key).length →
      DocumentProcessor.parseKeyIds key =
        ((splitChar '/' key).getD 1 "", (splitChar '/' key).getD 2 "",
          (splitChar '/' key).getD 3 "")) ∧
    ((splitChar '/' key).length < 4 →
      DocumentProcessor.parseKeyIds key =
        ("system",
          (splitChar '.' ((splitChar '/' key).getLastD "")).headD "",
          (splitChar '/' key).getLastD "")) := by
  constructor
  · intro h
    simp [DocumentProcessor.parseKeyIds, h]
  · intro h
    simp [DocumentProcessor.parseKeyIds, Nat.not_le.mpr h]

/-- Witness for C9 (amended) on a well-formed four-component key. -/
theorem C9_witness :
    DocumentProcessor.parseKeyIds "uploads/u/d/f.txt" =
      ((splitChar '/' "uploads/u/d/f.txt").getD 1 "",
        (splitChar '/' "uploads/u/d/f.txt").getD 2 "",
        (splitChar '/' "uploads/u/d/f.txt").getD 3 "") :=
  (C9_key_component_parsing "uploads/u/d/f.txt").1 (by decide)

/-- An ingestion environment whose only chunk INSERT fails: resolution,
download, load, connection and the document INSERT all succeed, one chunk
is produced, and its INSERT raises. -/
def cexEnv : DocumentProcessor.IngestEnv :=
  { store := ["uploads/u/d/f.txt"]
    downloadOk := true
    loadResult := some [{ page_content := "hello world", page := 0 }]
    chunker := fun ps => ps
    embedOracle := fun _ => some [1]
    connectOk := true
    docInsertOk := true
    chunkInsertOk := fun _ => false
    chunkId := fun i => "chunk-" ++ toString i }

/-- A successful chunk-insert loop persists exactly one row per chunk. -/
theorem insertChunkRows_length (env : DocumentProcessor.IngestEnv)
    (d u : String) :
    ∀ (i : Nat) (cs : List DocumentProcessor.Passage)
      (rows : List DocumentProcessor.ChunkRecord),
      DocumentProcessor.insertChunkRows env d u i cs = some rows →
      rows.length = cs.length := by
  intro i cs
  induction cs generalizing i with
  | nil =>
    intro rows h
    simp only [DocumentProcessor.insertChunkRows, Option.some.injEq] at h
    subst h
    rfl
  | cons c cs ih =>
    intro rows h
    simp only [DocumentProcessor.insertChunkRows] at h
    by_cases hk : env.chunkInsertOk i
    · rw [if_pos hk] at h
      obtain ⟨rest, hrest, hrows⟩ := Option.map_eq_some'.mp h
      subst hrows
      simp [ih (i + 1) rest hrest]
    · rw [if_neg hk] at h
      exact absurd h (by simp)

/-- C1 counterexample: on `cexEnv` the ingestion aborts (a chunk INSERT
fails after one chunk was produced), yet the committed state holds the
Document row with status `processed` and zero chunk rows — the Document
is visible as `processed` with fewer chunks than were produced, refuting
the claim. -/
theorem C1_counterexample :
    (DocumentProcessor.process_document cexEnv "bucket"
        "uploads/u/d/f.txt" "d" "u" "text/plain").2.documents.map
          (fun r => r.status) = ["processed"] ∧
    (DocumentProcessor.process_document cexEnv "bucket"
        "uploads/u/d/f.txt" "d" "u" "text/plain").2.chunks = [] ∧
    (DocumentProcessor.process_document cexEnv "bucket"
        "uploads/u/d/f.txt" "d" "u" "text/plain").1 = Except.error () ∧
    (cexEnv.chunker (cexEnv.loadResult.getD [])).length = 1 :=
  ⟨rfl, rfl, rfl, rfl⟩

/-- C1 (amended): failures at locator resolution, download, load,
connection, or the document INSERT abort the ingestion with nothing
persisted; a fully successful run returns the chunk count and ids with
the Document committed as `processed` and one chunk row per chunk; but
the Document row is committed *before* the chunk phase, so a failing
chunk INSERT aborts the run while leaving the Document committed as
`processed` with zero chunk rows. -/
theorem C1_commit_order (env : DocumentProcessor.IngestEnv)
    (bucket key document_id user_id mime_type : String) :
    ((∃ e, get_s3_object_with_various_encoding env.store key =
        Except.error e) ∨
      env.downloadOk = false ∨ env.loadResult = none ∨
      env.connectOk = false ∨ env.docInsertOk = false →
      DocumentProcessor.process_document env bucket key document_id
          user_id mime_type =
        (Except.error (), DocumentProcessor.emptyPg)) ∧
    (∀ n ids,
      (DocumentProcessor.process_document env bucket key document_id
          user_id mime_type).1 = Except.ok (n, ids) →
      (DocumentProcessor.process_document env bucket key document_id
          user_id mime_type).2.documents.map (fun r => r.status) =
        ["processed"] ∧
      (DocumentProcessor.process_document env bucket key document_id
          user_id mime_type).2.chunks.length = n ∧
      ids.length = n) ∧
    (∀ wk ps,
      get_s3_object_with_various_encoding env.store key = Except.ok wk →
      env.downloadOk = true → env.loadResult = some ps →
      env.connectOk = true → env.docInsertOk = true →
      DocumentProcessor.insertChunkRows env document_id user_id 0
          (env.chunker ps) = none →
      DocumentProcessor.process_document env bucket key document_id
          user_id mime_type =
        (Except.error (),
          { documents := [{ document_id := document_id,
                            user_id := user_id,
                            file_name := lastComponent wk,
                            mime_type := mime_type,
                            status := "processed",
                            bucket := bucket, key := wk }],
            chunks := [] })) := by
  refine ⟨?_, ?_, ?_⟩
  · intro h
    cases hres : get_s3_object_with_various_encoding env.store key with
    | error e => simp [DocumentProcessor.process_document, hres]
    | ok wk =>
      rcases h with ⟨e, he⟩ | h | h | h | h
      · rw [hres] at he
        exact absurd he (by simp)
      · simp [DocumentProcessor.process_document, hres, h]
      · by_cases hd : env.downloadOk = true <;>
          simp [DocumentProcessor.process_document, hres, hd, h]
      · by_cases hd : env.downloadOk = true <;>
          cases hl : env.loadResult <;>
            simp [DocumentProcessor.process_document, hres, hd, hl, h]
      · by_cases hd : env.downloadOk = true <;>
          cases hl : env.loadResult <;>
            by_cases hc : env.connectOk = true <;>
              simp [DocumentProcessor.process_document, hres, hd, hl, hc, h]
  · intro n ids h
    cases hres : get_s3_object_with_various_encoding env.store key with
    | error e => simp [DocumentProcessor.process_document, hres] at h
    | ok wk =>
      by_cases hd : env.downloadOk = true
      swap
      · simp [DocumentProcessor.process_document, hres, hd] at h
      cases hl : env.loadResult with
      | none => simp [DocumentProcessor.process_document, hres, hd, hl] at h
      | some ps =>
        by_cases hc : env.connectOk = true
        swap
        · simp [DocumentProcessor.process_document, hres, hd, hl, hc] at h
        by_cases hdi : env.docInsertOk = true
        swap
        · simp [DocumentProcessor.process_document, hres, hd, hl, hc,
            hdi] at h
        cases hrows : DocumentProcessor.insertChunkRows env document_id
            user_id 0 (env.chunker ps) with
        | none =>
          simp [DocumentProcessor.process_document, hres, hd, hl, hc, hdi,
            hrows] at h
        | some rows =>
          have hP : DocumentProcessor.process_document env bucket key
              document_id user_id mime_type =
              (Except.ok ((env.chunker ps).length,
                rows.map (fun r => r.chunk_id)),
               { documents := [{ document_id := document_id,
                                 user_id := user_id,
                                 file_name := lastComponent wk,
                                 mime_type := mime_type,
                                 status := "processed",
                                 bucket := bucket, key := wk }],
                 chunks := rows }) := by
            simp [DocumentProcessor.process_document, hres, hd, hl, hc,
              hdi, hrows]
          rw [hP] at h
          simp only [Except.ok.injEq, Prod.mk.injEq] at h
          obtain ⟨hn, hids⟩ := h
          have hlen := insertChunkRows_length env document_id user_id 0
            (env.chunker ps) rows hrows
          refine ⟨by rw [hP]; rfl, ?_, ?_⟩
          · rw [hP, ← hn]
            exact hlen
          · rw [← hids, ← hn, List.length_map]
            exact hlen
  · intro wk ps hres hd hl hc hdi hrows
    simp [DocumentProcessor.process_document, hres, hd, hl, hc, hdi, hrows]

/-- Witness for C1 (amended): a run whose loader fails persists nothing,
and on `cexEnv` (all pre-steps succeed, the chunk INSERT fails) the
committed state is exactly the processed Document with no chunks. -/
theorem C1_witness :
    DocumentProcessor.process_document
        { cexEnv with loadResult := none } "bucket" "uploads/u/d/f.txt"
        "d" "u" "text/plain" =
      (Except.error (), DocumentProcessor.emptyPg) ∧
    DocumentProcessor.process_document cexEnv "bucket"
        "uploads/u/d/f.txt" "d" "u" "text/plain" =
      (Except.error (),
        { documents := [{ document_id := "d", user_id := "u",
                          file_name := lastComponent "uploads/u/d/f.txt",
                          mime_type := "text/plain",
                          status := "processed",
                          bucket := "bucket",
                          key := "uploads/u/d/f.txt" }],
          chunks := [] }) :=
  ⟨(C1_commit_order { cexEnv with loadResult := none } "bucket"
      "uploads/u/d/f.txt" "d" "u" "text/plain").1
      (Or.inr (Or.inr (Or.inl rfl))),
   (C1_commit_order cexEnv "bucket" "uploads/u/d/f.txt" "d" "u"
      "text/plain").2.2 "uploads/u/d/f.txt"
      [{ page_content := "hello world", page := 0 }] rfl rfl rfl rfl rfl
      rfl⟩

end RagAws
